import Mathlib

/-!
Shallow embedding of `src/compile.py` (xray-rpc release-sync pipeline).

The Python module orchestrates: locating the latest upstream release tag,
downloading and expanding the source archive, compiling `.proto` schemas,
rewriting the generated files' pb2 imports, and synchronizing the package
version.  Strings are modelled as `List Char`; the file system as a list of
(path, content) pairs; HTTP and subprocess interactions as explicit oracle
values passed in.  Fallible Python code is modelled with `Except`/`Bool`
results mirroring the source's `try`/`except` structure.
-/

namespace XrayRpc

/-! ### Python regex semantics for the import-rewrite substitution

`main` runs, for each generated `.py` file:
  `re.sub(r"from\s+(.*)\s+import (.*)pb2", r"from xray_rpc.\1 import \2pb2", code)`

We embed this one pattern with Python's leftmost-match, greedy-backtracking
semantics.  `.` matches any character except a newline; `\s` is whitespace
(space, tab, newline, carriage return, form feed, vertical tab); quantifiers
are greedy and backtrack most-recent-first, which the nested longest-first
searches below reproduce exactly. -/

/-- Python `\s` on the ASCII range: the whitespace characters. -/
def pyIsSpace (c : Char) : Bool :=
  c = ' ' || c = '\t' || c = '\n' || c = '\r' || c = '\x0b' || c = '\x0c'

/-- Maximal run of whitespace characters at the head of `s` (for `\s+`). -/
def wsRun : List Char → List Char
  | [] => []
  | c :: cs => if pyIsSpace c then c :: wsRun cs else []

/-- Maximal run of non-newline characters at the head of `s` (for `.*`). -/
def dotRun : List Char → List Char
  | [] => []
  | c :: cs => if c = '\n' then [] else c :: dotRun cs

/-- `[n, n-1, ..., 1]`: candidate consumption lengths, longest first. -/
def descRange : Nat → List Nat
  | 0 => []
  | Nat.succ k => (k + 1) :: descRange k

/-- Splits `(consumed, rest)` for `\s+`: a nonempty whitespace head,
longest candidate first (greedy order). -/
def plusSplits (s : List Char) : List (List Char × List Char) :=
  (descRange (wsRun s).length).map (fun k => (s.take k, s.drop k))

/-- Splits `(consumed, rest)` for `(.*)`: a possibly-empty non-newline head,
longest candidate first (greedy order). -/
def starSplits (s : List Char) : List (List Char × List Char) :=
  ((descRange (dotRun s).length).map (fun k => (s.take k, s.drop k))) ++ [([], s)]

/-- First success of `f` along a list of candidates (backtracking order). -/
def firstSome {α β : Type} (f : α → Option β) : List α → Option β
  | [] => none
  | a :: as =>
    match f a with
    | some b => some b
    | none => firstSome f as

/-- Consume a literal: `some rest` when `lit` heads `s`. -/
def dropLit : List Char → List Char → Option (List Char)
  | [], s => some s
  | _ :: _, [] => none
  | l :: ls, c :: cs => if l = c then dropLit ls cs else none

/-- Match `from\s+(.*)\s+import (.*)pb2` anchored at the head of `s`,
returning the two capture groups and the remainder after the match.
Quantifier candidates are explored greedily, most recent backtracking
first, as Python's engine does. -/
def matchAt (s : List Char) : Option (List Char × List Char × List Char) :=
  match dropLit "from".toList s with
  | none => none
  | some s1 =>
    firstSome (fun p1 =>
      firstSome (fun g1 =>
        firstSome (fun p2 =>
          match dropLit "import ".toList p2.2 with
          | none => none
          | some s2 =>
            firstSome (fun g2 =>
              match dropLit "pb2".toList g2.2 with
              | none => none
              | some rest => some (g1.1, g2.1, rest))
              (starSplits s2))
          (plusSplits g1.2))
        (starSplits p1.2))
      (plusSplits s1)

/-- The replacement template `from xray_rpc.\1 import \2pb2` instantiated
with capture groups `g1`, `g2`. -/
def replTemplate (g1 g2 : List Char) : List Char :=
  "from xray_rpc.".toList ++ g1 ++ " import ".toList ++ g2 ++ "pb2".toList

/-- `re.sub` scan: try a match at each position left to right; on a match,
emit the replacement and resume after the match; otherwise copy one
character.  `fuel` bounds the recursion; every step consumes at least one
character, so `s.length` fuel always suffices. -/
def subAux : Nat → List Char → List Char
  | 0, s => s
  | Nat.succ fuel, s =>
    match s with
    | [] => []
    | c :: cs =>
      match matchAt s with
      | some (g1, g2, rest) => replTemplate g1 g2 ++ subAux fuel rest
      | none => c :: subAux fuel cs

/-- The import-rewrite substitution applied to a whole file content, as
`main` applies it to each generated `.py` file. -/
def rewriteImports (s : List Char) : List Char :=
  subAux s.length s

/-! ### `download`: streamed fetch to a file

`download(url, target)` opens `target` for writing (truncating it), then
streams the response body chunk by chunk inside a `try`: any exception while
streaming is caught, logged and turned into `False`; completing the stream
returns `True`.  The HTTP exchange is modelled as an oracle value: the
status code and either the full chunk list or the chunks delivered before a
transport exception.  Bytes are `Nat`s. -/

/-- Outcome of iterating a streamed response body. -/
inductive StreamOutcome where
  | ok (chunks : List (List Nat))
  | interrupted (delivered : List (List Nat)) (exn : String)
  deriving DecidableEq

/-- A streamed HTTP exchange as `download` observes it: the response status
code and the body-iteration outcome. -/
structure HttpStreamResponse where
  status : Nat
  body : StreamOutcome
  deriving DecidableEq

/-- `download`: returns (success flag, bytes written to the target file).
The status code is never inspected; the file holds whatever chunks were
written before completion or interruption. -/
def download (resp : HttpStreamResponse) : Bool × List Nat :=
  match resp.body with
  | StreamOutcome.ok chunks => (true, chunks.flatten)
  | StreamOutcome.interrupted delivered _ => (false, delivered.flatten)

/-! ### `_get_latest_xray_release`: the release locator

The function performs `client.get(...)` with no `try`/`except`: a transport
error raised by the client propagates to the caller.  On a response it
checks the status code, returning `""` unless it is 200, then reads
`result["tag_name"]` from the JSON body (a `KeyError` would also
propagate).  The GET is modelled as an oracle: either a raised transport
error, or a response carrying a status and a JSON object modelled as a
string-to-string association list. -/

/-- Result of `client.get` as the locator observes it. -/
inductive GetResult where
  | transportError (exn : String)
  | response (status : Nat) (json : List (String × String))
  deriving DecidableEq

/-- `_get_latest_xray_release`, in an exception monad: `Except.error` marks
an uncaught Python exception propagating out of the function. -/
def get_latest_xray_release (req : GetResult) : Except String String :=
  match req with
  | GetResult.transportError exn => Except.error exn
  | GetResult.response status json =>
    if status ≠ 200 then Except.ok ""
    else
      match json.lookup "tag_name" with
      | some tag => Except.ok tag
      | none => Except.error "KeyError: tag_name"

/-! ### File-system model

Paths are component lists; a file system is a list of (path, content)
pairs.  Used by the unzip and schema-compile steps. -/

/-- A file-system path, as components. -/
abbrev FsPath := List String

/-- A file system: the files that exist, with their contents. -/
abbrev Fs := List (FsPath × String)

/-- Does a file exist at `p`? -/
def fsExists (fs : Fs) (p : FsPath) : Bool :=
  fs.any (fun f => f.1 = p)

/-- Is `d` a path prefix of `p` (i.e. `p` lies under directory `d`)? -/
def underDir (d p : FsPath) : Bool :=
  match d, p with
  | [], _ => true
  | _ :: _, [] => false
  | x :: xs, y :: ys => x = y && underDir xs ys

/-- Write (or overwrite) one file. -/
def fsWrite (p : FsPath) (content : String) (fs : Fs) : Fs :=
  fs.filter (fun f => f.1 ≠ p) ++ [(p, content)]

/-! ### `_unzip_xray_core`: the archive expander

If the zip file exists, every entry is extracted into the zip's parent
directory and the function returns `True`; otherwise it logs a warning and
returns `False` (no exception).  The zip's entry list is an oracle (entry
names with contents, relative to the archive root). -/

/-- `_unzip_xray_core`: (success flag, file system afterwards).  `zipFn` is
the archive path, `parent` its parent directory, `entries` the archive's
contents. -/
def unzip_xray_core (zipFn : FsPath) (parent : FsPath)
    (entries : List (FsPath × String)) (fs : Fs) : Bool × Fs :=
  if fsExists fs zipFn then
    (true, entries.foldl (fun acc e => fsWrite (parent ++ e.1) e.2 acc) fs)
  else
    (false, fs)

/-! ### `gen_pb2`: the schema compiler step

`gen_pb2(src, dst)` first runs `shutil.rmtree(dst, ignore_errors=True)` and
`dst.mkdir(mode=0o755)`, then shells out to `grpc.tools.protoc` over every
`.proto` under `src` and returns the process exit code.  The compiler is an
external tool: its outputs (files under `dst`) and exit code are oracles. -/

/-- `shutil.rmtree(dst, ignore_errors=True)`: every file under `dst` is
removed; a missing directory is ignored. -/
def rmtree (dst : FsPath) (fs : Fs) : Fs :=
  fs.filter (fun f => !underDir dst f.1)

/-- `gen_pb2`: (exit code, file system afterwards).  The destination is
wiped and recreated, then the external compiler's outputs appear under it. -/
def gen_pb2 (dst : FsPath) (compilerOut : List (FsPath × String))
    (exitCode : Int) (fs : Fs) : Int × Fs :=
  (exitCode, compilerOut.foldl (fun acc e => fsWrite (dst ++ e.1) e.2 acc) (rmtree dst fs))

/-! ### Version logic and `main`'s control flow

`main` runs: `install_xray(...)` with its boolean result DISCARDED, then
`_get_latest_xray_release()`, then computes
`src_path = path / ("Xray-core-" + latest_version.replace("v", ""))` and,
only if `src_path` exists, runs `gen_pb2`, the import rewrite, and the
`poetry version` synchronization; otherwise it logs an error and stops. -/

/-- Python `s.replace("v", "")`: removes every `v`. -/
def pyReplaceV (s : List Char) : List Char :=
  s.filter (fun c => c ≠ 'v')

/-- Python `s.startswith(p)`. -/
def pyStartswith (p s : List Char) : Bool :=
  match p, s with
  | [], _ => true
  | _ :: _, [] => false
  | a :: as, b :: bs => a = b && pyStartswith as bs

/-- The new version `main` persists via `poetry version`: if the current
PyPI version starts with the tag with its `v`s removed, append a
minute-resolution timestamp qualifier; otherwise use the tag's numeric
string verbatim. -/
def newVersion (current tag ts : List Char) : List Char :=
  let numeric := pyReplaceV tag
  if pyStartswith numeric current then numeric ++ '.' :: ts else numeric

/-- The pipeline stages `main` can run, in program order. -/
inductive Stage where
  | install | locate | compile | rewrite | versionSync
  deriving DecidableEq

/-- The world `main` observes: the (discarded) result of `install_xray`,
the tag the locator returns, and whether the expanded-source directory
`Xray-core-<tag without v>` exists when checked. -/
structure MainWorld where
  installOk : Bool
  latestTag : List Char
  srcExists : Bool
  deriving DecidableEq

/-- The stages `main` executes, in order: install and locate run
unconditionally (install's result is discarded); compile, rewrite and
version-sync run exactly when the expanded-source path exists. -/
def mainStages (w : MainWorld) : List Stage :=
  [Stage.install, Stage.locate] ++
    (if w.srcExists then [Stage.compile, Stage.rewrite, Stage.versionSync] else [])

/-- Modelled from the spec's wording for the version synchronizer: the
tag's numeric portion, obtained by stripping one leading `v`.  Used to
compare the code's `replace("v", "")` against the spec's description. -/
def specNumericPortion (tag : List Char) : List Char :=
  match tag with
  | [] => []
  | c :: rest => if c = 'v' then rest else c :: rest

/-! ### Theorems -/

/-- On tags whose only `v` is a leading one, Python's `replace("v", "")`
agrees with the spec's "numeric portion" (leading `v` stripped). -/
theorem pyReplaceV_eq_specNumericPortion (tag : List Char)
    (h : ∀ c ∈ tag.drop 1, c ≠ 'v') :
    pyReplaceV tag = specNumericPortion tag := by
  cases tag with
  | nil => rfl
  | cons c rest =>
    have hall : ∀ a ∈ rest, ¬a = 'v' := fun a ha => h a (by simpa using ha)
    by_cases hc : c = 'v'
    · subst hc
      simp [pyReplaceV, specNumericPortion]
      exact hall
    · simp [pyReplaceV, specNumericPortion, hc]
      exact hall

/-- Membership after one modelled file write. -/
theorem mem_fsWrite {f : FsPath × String} {p : FsPath} {c : String} {acc : Fs}
    (hf : f ∈ fsWrite p c acc) : f ∈ acc ∨ f = (p, c) := by
  unfold fsWrite at hf
  rcases List.mem_append.mp hf with h1 | h2
  · exact Or.inl (List.mem_of_mem_filter h1)
  · simp at h2
    exact Or.inr h2

/-- Membership after folding the modelled compiler outputs into the file
system: a file was either there already or is one of the outputs. -/
theorem mem_foldl_fsWrite (dst : FsPath) (entries : List (FsPath × String))
    (base : Fs) (f : FsPath × String)
    (h : f ∈ entries.foldl (fun acc e => fsWrite (dst ++ e.1) e.2 acc) base) :
    f ∈ base ∨ ∃ e ∈ entries, f.1 = dst ++ e.1 := by
  induction entries generalizing base with
  | nil => exact Or.inl h
  | cons e es ih =>
    rcases ih (fsWrite (dst ++ e.1) e.2 base) h with hb | ⟨e', he', hp⟩
    · rcases mem_fsWrite hb with h1 | h2
      · exact Or.inl h1
      · exact Or.inr ⟨e, List.mem_cons_self e es, by rw [h2]⟩
    · exact Or.inr ⟨e', List.mem_cons_of_mem e he', hp⟩

/-- Everything surviving `rmtree dst` lies outside `dst`. -/
theorem not_under_of_mem_rmtree {dst : FsPath} {fs : Fs} {f : FsPath × String}
    (h : f ∈ rmtree dst fs) : underDir dst f.1 = false := by
  unfold rmtree at h
  simpa using List.of_mem_filter h

/-- C1: the claim "the ImportRewriter step is idempotent: applying the
rewrite substitution twice yields the same content as applying it once; a
file already reading `from xray_rpc.foo.bar import baz_pb2_grpc` is left
unchanged by a second pass" is FALSE on the code: the pattern re-matches
its own output, and the second pass double-prefixes exactly that file. -/
theorem C1_counterexample :
    rewriteImports (rewriteImports "from foo.bar import baz_pb2_grpc".toList) ≠
      rewriteImports "from foo.bar import baz_pb2_grpc".toList ∧
    rewriteImports "from xray_rpc.foo.bar import baz_pb2_grpc".toList =
      "from xray_rpc.xray_rpc.foo.bar import baz_pb2_grpc".toList := by
  constructor
  · decide
  · decide

/-- C1 (amended): the rewrite is NOT idempotent.  One pass turns
`from foo.bar import baz_pb2_grpc` into
`from xray_rpc.foo.bar import baz_pb2_grpc`; the substitution re-matches
that output, so a second pass produces the double prefix
`from xray_rpc.xray_rpc.foo.bar import baz_pb2_grpc`. -/
theorem C1_second_pass_double_prefixes :
    rewriteImports "from foo.bar import baz_pb2_grpc".toList =
      "from xray_rpc.foo.bar import baz_pb2_grpc".toList ∧
    rewriteImports (rewriteImports "from foo.bar import baz_pb2_grpc".toList) =
      "from xray_rpc.xray_rpc.foo.bar import baz_pb2_grpc".toList := by
  constructor
  · decide
  · decide

/-- C2: the claim "if a stage fails, no later dependent stage executes in
that run" is FALSE on the code: `main` discards `install_xray`'s boolean,
so in a world where installation failed but the expanded-source directory
exists (e.g. left by an earlier run), the compile stage still executes. -/
theorem C2_counterexample :
    (MainWorld.mk false "v1.2.3".toList true).installOk = false ∧
    Stage.compile ∈ mainStages (MainWorld.mk false "v1.2.3".toList true) := by
  decide

/-- C2 (amended): `main` runs install and locate unconditionally (install's
result is discarded), and runs compile, import-rewrite and version-sync
exactly when the expected expanded-source directory exists — regardless of
whether the install stage succeeded. -/
theorem C2_stage_gating (w : MainWorld) :
    Stage.install ∈ mainStages w ∧ Stage.locate ∈ mainStages w ∧
    (Stage.compile ∈ mainStages w ↔ w.srcExists = true) ∧
    (Stage.rewrite ∈ mainStages w ↔ w.srcExists = true) ∧
    (Stage.versionSync ∈ mainStages w ↔ w.srcExists = true) := by
  obtain ⟨i, t, s⟩ := w
  cases s <;> simp [mainStages]

/-- C3: the claim "a transport error in the locator's GET is caught,
logged, and turned into an empty string" is FALSE on the code:
`_get_latest_xray_release` has no `try`/`except`, so the exception
propagates and in particular the result is not the empty string. -/
theorem C3_counterexample :
    get_latest_xray_release (GetResult.transportError "httpx.ConnectError") =
      Except.error "httpx.ConnectError" ∧
    get_latest_xray_release (GetResult.transportError "httpx.ConnectError") ≠
      Except.ok "" := by
  constructor
  · rfl
  · intro hcontra
    exact Except.noConfusion hcontra

/-- C3 (amended): a transport error raised by the locator's GET is not
caught: it propagates to the caller as an exception; only the non-200
branch produces the logged empty-string result. -/
theorem C3_transport_error_propagates (exn : String) :
    get_latest_xray_release (GetResult.transportError exn) = Except.error exn :=
  rfl

/-- C4: for tags whose only `v` is the leading one, the version
synchronizer sets `<numeric>.<timestamp>` when the current version starts
with the tag's numeric portion, and exactly the numeric portion
otherwise. -/
theorem C4_version_synchronizer (current tag ts : List Char)
    (h : ∀ c ∈ tag.drop 1, c ≠ 'v') :
    newVersion current tag ts =
      (if pyStartswith (specNumericPortion tag) current
       then specNumericPortion tag ++ '.' :: ts
       else specNumericPortion tag) := by
  simp only [newVersion, pyReplaceV_eq_specNumericPortion tag h]

/-- C4 witness: the spec's two examples, at a concrete timestamp.  Current
`1.2.3.202401010000` with tag `v1.2.3` gets the timestamp suffix; current
`1.0.0` with tag `v2.0.0` becomes exactly `2.0.0`. -/
theorem C4_version_synchronizer_witness :
    newVersion "1.2.3.202401010000".toList "v1.2.3".toList "202401020304".toList =
      "1.2.3.202401020304".toList ∧
    newVersion "1.0.0".toList "v2.0.0".toList "202401020304".toList =
      "2.0.0".toList := by
  constructor
  · rw [C4_version_synchronizer "1.2.3.202401010000".toList "v1.2.3".toList
      "202401020304".toList (by decide)]
    decide
  · rw [C4_version_synchronizer "1.0.0".toList "v2.0.0".toList
      "202401020304".toList (by decide)]
    decide

/-- C5: `download` returns true exactly when the stream completes without a
transport exception; an exception mid-stream yields false with the chunks
delivered so far (possibly none) written to the destination file. -/
theorem C5_download_stream_errors (resp : HttpStreamResponse) :
    ((download resp).1 = true ↔ ∃ chunks, resp.body = StreamOutcome.ok chunks) ∧
    (∀ delivered exn, resp.body = StreamOutcome.interrupted delivered exn →
      download resp = (false, delivered.flatten)) := by
  obtain ⟨status, body⟩ := resp
  cases body with
  | ok chunks =>
    refine ⟨by simp [download], ?_⟩
    intro delivered exn hd
    simp at hd
  | interrupted delivered exn =>
    refine ⟨by simp [download], ?_⟩
    intro d' e' hd
    simp only [download]
    injection hd with h1 h2
    rw [h1]

/-- C5 witness: a stream interrupted after one delivered chunk yields a
false result with exactly that chunk on disk. -/
theorem C5_download_stream_errors_witness :
    download ⟨200, StreamOutcome.interrupted [[104, 105]] "httpx.ReadTimeout"⟩ =
      (false, [104, 105]) := by
  have h := (C5_download_stream_errors
    ⟨200, StreamOutcome.interrupted [[104, 105]] "httpx.ReadTimeout"⟩).2
    [[104, 105]] "httpx.ReadTimeout" rfl
  simpa using h

/-- C6: on a 200 response whose JSON body has a `tag_name` field the
locator returns exactly that field's value; on a non-200 response it
returns the empty string. -/
theorem C6_release_locator (status : Nat) (json : List (String × String))
    (tag : String) (hTag : json.lookup "tag_name" = some tag)
    (hStatus : status ≠ 200) :
    get_latest_xray_release (GetResult.response 200 json) = Except.ok tag ∧
    get_latest_xray_release (GetResult.response status json) = Except.ok "" := by
  constructor
  · simp [get_latest_xray_release, hTag]
  · simp [get_latest_xray_release, hStatus]

/-- C6 witness: a concrete 200 response with a tag and a concrete 404. -/
theorem C6_release_locator_witness :
    get_latest_xray_release
        (GetResult.response 200 [("tag_name", "v25.1.1")]) =
      Except.ok "v25.1.1" ∧
    get_latest_xray_release
        (GetResult.response 404 [("tag_name", "v25.1.1")]) =
      Except.ok "" :=
  C6_release_locator 404 [("tag_name", "v25.1.1")] "v25.1.1" (by decide) (by decide)

/-- C7: one application of the import rewrite turns
`from foo.bar import baz_pb2_grpc` into
`from xray_rpc.foo.bar import baz_pb2_grpc`, also when the line sits
inside a larger generated file, and every pb2 import line is prefixed. -/
theorem C7_rewrite_prefixes_package_root :
    rewriteImports "from foo.bar import baz_pb2_grpc".toList =
      "from xray_rpc.foo.bar import baz_pb2_grpc".toList ∧
    rewriteImports
        "import os\nfrom foo.bar import baz_pb2_grpc\nfrom core import config_pb2\n".toList =
      "import os\nfrom xray_rpc.foo.bar import baz_pb2_grpc\nfrom xray_rpc.core import config_pb2\n".toList := by
  constructor
  · decide
  · decide

/-- C8: `gen_pb2` wipes the destination directory before compiling: any
file under `dst` present beforehand and not among the compiler's outputs
is absent afterwards. -/
theorem C8_gen_pb2_wipes_dest (dst : FsPath) (out : List (FsPath × String))
    (code : Int) (fs : Fs) (f : FsPath × String)
    (_hIn : f ∈ fs) (hUnder : underDir dst f.1 = true)
    (hNotOut : ∀ e ∈ out, dst ++ e.1 ≠ f.1) :
    f ∉ (gen_pb2 dst out code fs).2 := by
  intro hmem
  unfold gen_pb2 at hmem
  rcases mem_foldl_fsWrite dst out (rmtree dst fs) f hmem with hb | ⟨e, he, hp⟩
  · have hfalse := not_under_of_mem_rmtree hb
    rw [hUnder] at hfalse
    exact Bool.noConfusion hfalse
  · exact hNotOut e he hp.symm

/-- C8 witness: a stale sentinel file under the destination is gone after
the compile step, even though the compiler wrote a fresh file there. -/
theorem C8_gen_pb2_wipes_dest_witness :
    (["xray_rpc", "stale.py"], "old sentinel") ∉
      (gen_pb2 ["xray_rpc"] [(["core_pb2.py"], "generated")] 0
        [((["xray_rpc", "stale.py"] : FsPath), "old sentinel")]).2 :=
  C8_gen_pb2_wipes_dest ["xray_rpc"] [(["core_pb2.py"], "generated")] 0
    [((["xray_rpc", "stale.py"] : FsPath), "old sentinel")]
    (["xray_rpc", "stale.py"], "old sentinel")
    (by decide) (by decide) (by decide)

/-- C9: invoked on a path where the archive does not exist, the expander
returns false and leaves the file system unchanged (and, being a total
function into `Bool × Fs`, raises no exception). -/
theorem C9_unzip_missing_archive (zipFn parent : FsPath)
    (entries : List (FsPath × String)) (fs : Fs)
    (h : fsExists fs zipFn = false) :
    unzip_xray_core zipFn parent entries fs = (false, fs) := by
  unfold unzip_xray_core
  rw [h]
  simp

/-- C9 witness: a file system without the archive is returned untouched. -/
theorem C9_unzip_missing_archive_witness :
    unzip_xray_core ["home", "xray-node", "xray-core.zip"] ["home", "xray-node"]
      [(["Xray-core-25.1.1", "core", "config.proto"], "syntax proto3")]
      [((["home", "xray-node", "other.txt"] : FsPath), "unrelated")] =
    (false, [((["home", "xray-node", "other.txt"] : FsPath), "unrelated")]) :=
  C9_unzip_missing_archive ["home", "xray-node", "xray-core.zip"]
    ["home", "xray-node"]
    [(["Xray-core-25.1.1", "core", "config.proto"], "syntax proto3")]
    [((["home", "xray-node", "other.txt"] : FsPath), "unrelated")]
    (by decide)

/-- C10: when the stream completes, `download` reports success and writes
the full body no matter the HTTP status code (no status check exists): a
404 body is written and reported successful; in general the result does
not depend on the status at all. -/
theorem C10_download_ignores_status (status other : Nat)
    (chunks : List (List Nat)) (body : StreamOutcome) :
    download ⟨404, StreamOutcome.ok chunks⟩ = (true, chunks.flatten) ∧
    download ⟨status, StreamOutcome.ok chunks⟩ = (true, chunks.flatten) ∧
    download ⟨status, body⟩ = download ⟨other, body⟩ :=
  ⟨rfl, rfl, rfl⟩

end XrayRpc
